import Mathlib

set_option autoImplicit false

/-!
Verification of the Keycloak lifecycle manager
(`src/keycloak/src/pytest_keycloak/manager.py`, `config.py`, `exceptions.py`)
against its natural-language specification.

The Python code is shallowly embedded: filesystem and network effects are
abstracted into explicit state records and oracle functions, exceptions
become `Except`, and wall-clock time in the readiness poll becomes an
explicit elapsed-seconds counter.
-/

namespace PytestKeycloak

/-- Error taxonomy from `exceptions.py`: each constructor is one exception
class, carrying its message. `javaNotFound` is `JavaNotFoundError`,
`downloadError` is `KeycloakDownloadError`, `startError` is
`KeycloakStartError`, `timeoutError` is `KeycloakTimeoutError`. -/
inductive KcError where
  | javaNotFound (msg : String)
  | downloadError (msg : String)
  | startError (msg : String)
  | timeoutError (msg : String)
deriving DecidableEq, Repr

/-- The error kinds of the spec error taxonomy (section 7): an error kind is
the exception class, forgetting the message. -/
inductive KcErrorKind where
  | prerequisiteMissing
  | installationFailed
  | startFailed
  | readinessTimeout
deriving DecidableEq, Repr

/-- The kind (exception class) of an error. -/
def KcError.kind : KcError → KcErrorKind
  | .javaNotFound _ => .prerequisiteMissing
  | .downloadError _ => .installationFailed
  | .startError _ => .startFailed
  | .timeoutError _ => .readinessTimeout

/-- The message carried by an error (Python `str(e)`). -/
def KcError.message : KcError → String
  | .javaNotFound m => m
  | .downloadError m => m
  | .startError m => m
  | .timeoutError m => m

/-- Status of `self.process` in `KeycloakManager`: `noProcess` is
`self.process is None`; `running` is a handle whose `poll()` is `None`;
`exited` is a handle whose `poll()` returned an exit code. -/
inductive ProcStatus where
  | noProcess
  | running
  | exited
deriving DecidableEq, Repr

/-- The mutable state of one `KeycloakManager` instance together with the
on-disk facts the manager manipulates.  `realmConfigFile` is the
`self.realm_config_file` field (the per-port import document path, keyed
here by the port number it was written for); `realmFileOnDisk` is whether
that file currently exists inside `keycloak_dir/data/import`;
`dataDirOnDisk` and `confDirOnDisk` are whether `keycloak_dir/data` and
`keycloak_dir/conf` exist; `backupDir` is the `self._backup_dir` field and
`backupOnDisk` whether that directory exists on disk; `backupHasData` and
`backupHasConf` are whether the snapshot contains copies of `data/` and
`conf/`, and `backupHasImportFile` whether the snapshot's `data/` copy
contains the per-port import document (it does whenever the document was
on disk when `_backup_directories` ran, since `start` writes the document
before taking the snapshot). -/
structure MgrState where
  installed : Bool
  explicitPort : Bool
  port : Nat
  managementPort : Nat
  processStatus : ProcStatus
  realmConfigFile : Option Nat
  realmFileOnDisk : Bool
  dataDirOnDisk : Bool
  confDirOnDisk : Bool
  backupDir : Option Nat
  backupOnDisk : Bool
  backupHasData : Bool
  backupHasConf : Bool
  backupHasImportFile : Bool
deriving DecidableEq, Repr

/-- `KeycloakManager.is_running`: `False` when `self.process is None`,
otherwise `self.process.poll() is None`. -/
def is_running (s : MgrState) : Bool :=
  match s.processStatus with
  | .running => true
  | _ => false

/-- `KeycloakManager._is_port_in_use`: the bind-and-close probe on one port.
The outcome of the `SO_REUSEADDR` bind attempt is abstracted by the
`inUse` oracle (`true` when the bind raises `OSError`). -/
def is_port_in_use (inUse : Nat → Bool) (port : Nat) : Bool :=
  inUse port

/-- The `for port_offset in range(max_attempts)` loop body of
`KeycloakManager._find_available_ports`: at offset `off` with `fuel`
attempts remaining, probe `(sp + off, sp + off + 1000)` and advance. -/
def findPortPairFrom (inUse : Nat → Bool) (sp off fuel : Nat) : Option (Nat × Nat) :=
  match fuel with
  | 0 => none
  | fuel' + 1 =>
    if !is_port_in_use inUse (sp + off) && !is_port_in_use inUse (sp + off + 1000) then
      some (sp + off, sp + off + 1000)
    else
      findPortPairFrom inUse sp (off + 1) fuel'

/-- `KeycloakManager._find_available_ports`: search for a port `P` with both
`P` and `P + 1000` bindable, probing `max_attempts` consecutive candidates
starting at `start_port`; raise `KeycloakStartError` when none is found. -/
def find_available_ports (inUse : Nat → Bool) (start_port max_attempts : Nat) :
    Except KcError (Nat × Nat) :=
  match findPortPairFrom inUse start_port 0 max_attempts with
  | some pair => .ok pair
  | none =>
    .error (.startError ("Could not find available port pair after " ++
      toString max_attempts ++ " attempts starting from " ++ toString start_port))

/-- The port-selection step at the top of `KeycloakManager.start`
(lines 406-424): with explicit ports, direct bindability checks that fail
fast; otherwise `_find_available_ports` from the current port, updating the
port fields when the search lands elsewhere. -/
def startPortPhase (inUse : Nat → Bool) (s : MgrState) : Except KcError MgrState :=
  if s.explicitPort then
    if is_port_in_use inUse s.port then
      .error (.startError ("Port " ++ toString s.port ++
        " is already in use. Please choose a different port."))
    else if is_port_in_use inUse s.managementPort then
      .error (.startError ("Management port " ++ toString s.managementPort ++
        " is already in use. Please choose a different port."))
    else .ok s
  else
    match find_available_ports inUse s.port 100 with
    | .ok (http_port, mgmt_port) =>
      .ok { s with port := http_port, managementPort := mgmt_port }
    | .error e => .error e

/-- The filesystem operations of `_restore_directories`' try block, in
execution order: remove and re-copy of `data/`, remove and re-copy of
`conf/`, removal of the backup directory. -/
inductive RestoreOp where
  | dataRemove
  | dataCopy
  | confRemove
  | confCopy
  | backupRemove
deriving DecidableEq, Repr

/-- The data-directory restore inside `_restore_directories`' try block:
when the snapshot holds a `data/` copy, remove the current `data/` (if
present) and copy the snapshot back, which recreates inside `data/`
whatever the snapshot holds — in particular the per-port import document
when `backupHasImportFile`.  Each operation may raise (the `fails`
oracle); an error carries the state at the point of failure, since
filesystem changes made before the raise persist. -/
def restoreDataStep (fails : RestoreOp → Bool) (s : MgrState) :
    Except (String × MgrState) MgrState :=
  if s.backupHasData = false then .ok s
  else if s.dataDirOnDisk ∧ fails RestoreOp.dataRemove = true then
    .error ("rmtree of the data directory failed", s)
  else if fails RestoreOp.dataCopy = true then
    .error ("copytree of the data backup failed",
      if s.dataDirOnDisk then
        { s with dataDirOnDisk := false, realmFileOnDisk := false }
      else s)
  else
    .ok { s with dataDirOnDisk := true, realmFileOnDisk := s.backupHasImportFile }

/-- The conf-directory restore inside `_restore_directories`' try block:
same remove-then-copy pattern for `conf/`. -/
def restoreConfStep (fails : RestoreOp → Bool) (s : MgrState) :
    Except (String × MgrState) MgrState :=
  if s.backupHasConf = false then .ok s
  else if s.confDirOnDisk ∧ fails RestoreOp.confRemove = true then
    .error ("rmtree of the conf directory failed", s)
  else if fails RestoreOp.confCopy = true then
    .error ("copytree of the conf backup failed",
      if s.confDirOnDisk then { s with confDirOnDisk := false } else s)
  else
    .ok { s with confDirOnDisk := true }

/-- The whole try block of `KeycloakManager._restore_directories`: data
restore, then conf restore, then removal of the backup directory, and only
after all of that the clearing assignment `self._backup_dir = None`.  A
raise at any operation aborts the rest; the error carries the
partially-restored state reached so far. -/
def restoreAttempt (fails : RestoreOp → Bool) (s : MgrState) :
    Except (String × MgrState) MgrState :=
  match restoreDataStep fails s with
  | .error e => .error e
  | .ok s1 =>
    match restoreConfStep fails s1 with
    | .error e => .error e
    | .ok s2 =>
      if fails RestoreOp.backupRemove then
        .error ("rmtree of the backup directory failed", s2)
      else
        .ok { s2 with backupOnDisk := false, backupDir := none }

/-- `KeycloakManager._restore_directories`: early return when `_backup_dir`
is unset or the backup directory is gone from disk; otherwise run the try
block, swallowing (only logging) any error it raises — the
partially-restored state at the failure point persists. -/
def restore_directories (fails : RestoreOp → Bool) (s : MgrState) : MgrState :=
  match s.backupDir with
  | none => s
  | some _ =>
    if s.backupOnDisk = false then s
    else
      match restoreAttempt fails s with
      | .ok s' => s'
      | .error (_, s') => s'

/-- `KeycloakManager.stop`: early return when not running; otherwise
terminate (escalating to kill when the graceful wait times out, abstracted
by `gracefulStops` — both paths leave the process exited and clear the
handle), then in the `finally` block unlink the realm config file when the
field is set and the file exists (its own try/except: a raising unlink is
only logged, leaving file and field as they were), and finally restore the
backed-up directories — which recreates the import document inside `data/`
whenever the snapshot contains it. -/
def stop (gracefulStops unlinkRaises : Bool) (fails : RestoreOp → Bool)
    (s : MgrState) : MgrState :=
  if is_running s = false then s
  else
    let s1 :=
      if gracefulStops then { s with processStatus := ProcStatus.noProcess }
      else { s with processStatus := ProcStatus.noProcess }
    let s2 :=
      if s1.realmConfigFile.isSome && s1.realmFileOnDisk then
        if unlinkRaises then s1
        else { s1 with realmConfigFile := none, realmFileOnDisk := false }
      else s1
    restore_directories fails s2

/-- The first poll loop of `KeycloakManager.wait_for_ready` (the
`/health/ready` phase).  Time is an explicit elapsed-seconds counter that
starts at 0 when `wait_for_ready` records `start_time`; each tick issues
the GET (its outcome at elapsed time `t` is the oracle value `health t`:
`some code` for a response, `none` for a connection error), breaks on 200
returning the current elapsed time, otherwise fails at once when the
process is no longer running, and sleeps `interval = 2` seconds.  When the
`while` guard `elapsed < timeout` fails, the `else` clause raises the
did-not-become-ready `KeycloakTimeoutError`. -/
def healthPhase (health : Nat → Option Nat) (running : Nat → Bool)
    (timeout elapsed : Nat) : Except KcError Nat :=
  if h : elapsed < timeout then
    if health elapsed = some 200 then
      .ok elapsed
    else if running elapsed = false then
      .error (.timeoutError "Keycloak process terminated. Check logs")
    else
      healthPhase health running timeout (elapsed + 2)
  else
    .error (.timeoutError ("Keycloak did not become ready within " ++
      toString timeout ++ " seconds"))
termination_by timeout - elapsed
decreasing_by omega

/-- The second poll loop of `KeycloakManager.wait_for_ready` (the imported
realm phase): same tick pattern against the realm URL, entered at the
elapsed time where the health phase broke, against the same `timeout`
deadline on the same clock; when the `while` guard fails the loop falls
through to the realm-accessibility `KeycloakTimeoutError`. -/
def realmPhase (realmR : Nat → Option Nat) (running : Nat → Bool)
    (timeout elapsed : Nat) : Except KcError Unit :=
  if h : elapsed < timeout then
    if realmR elapsed = some 200 then
      .ok ()
    else if running elapsed = false then
      .error (.timeoutError "Keycloak process terminated. Check logs")
    else
      realmPhase realmR running timeout (elapsed + 2)
  else
    .error (.timeoutError ("Realm did not become accessible within " ++
      toString timeout ++ " seconds"))
termination_by timeout - elapsed
decreasing_by omega

/-- `KeycloakManager.wait_for_ready`: the health phase from elapsed time 0,
then, when a realm name was supplied, the realm phase continuing from the
elapsed time at which the health phase succeeded, against the same
`timeout` measured from the same `start_time`. -/
def wait_for_ready (health realmR : Nat → Option Nat) (running : Nat → Bool)
    (timeout : Nat) (realm_name : Option String) : Except KcError Unit :=
  match healthPhase health running timeout 0 with
  | .error e => .error e
  | .ok t =>
    match realm_name with
    | none => .ok ()
    | some _ => realmPhase realmR running timeout t

/-- The environment a `start` call runs in: port bindability, whether the
spawned process is still alive after the 2-second settle sleep, the health
and realm endpoint responses over elapsed poll time, and the process
liveness observed by the poll loops. -/
structure StartEnv where
  inUse : Nat → Bool
  settleAlive : Bool
  health : Nat → Option Nat
  realmReady : Nat → Option Nat
  runningAt : Nat → Bool

/-- The body of the `try` block of `KeycloakManager.start` after the
`Popen` call: sleep 2, fail with `KeycloakStartError` when `poll()` shows
the process terminated during the settle delay, then, when `wait_for_ready`
was requested, run the readiness poll (which raises
`KeycloakTimeoutError` on its failure paths). -/
def startTryBody (env : StartEnv) (realm_name : Option String)
    (waitFlag : Bool) (timeout : Nat) : Except KcError Unit :=
  if env.settleAlive = false then
    .error (.startError "Keycloak process terminated immediately. Check logs")
  else if waitFlag then
    wait_for_ready env.health env.realmReady env.runningAt timeout realm_name
  else
    .ok ()

/-- The spawn-and-supervise step of `KeycloakManager.start` (lines
485-528): `Popen` sets the process handle to a running process; on any
exception out of the try body, the `except` clause kills the process,
clears the handle, and re-raises everything wrapped as
`KeycloakStartError("Failed to start Keycloak: ...")`. -/
def startSpawnPhase (env : StartEnv) (realm_name : Option String)
    (waitFlag : Bool) (timeout : Nat) (s : MgrState) :
    Except KcError Unit × MgrState :=
  let sRun := { s with processStatus := ProcStatus.running }
  match startTryBody env realm_name waitFlag timeout with
  | .ok _ => (.ok (), sRun)
  | .error e =>
    (.error (.startError ("Failed to start Keycloak: " ++ e.message)),
     { sRun with processStatus := ProcStatus.noProcess })

/-- `KeycloakManager.start`: no-op when already running; fail fast when not
installed; select ports (explicit check or auto-search); write the
per-port realm import document when a realm config was supplied (the
`import_dir.mkdir(parents=True)` call creates `keycloak_dir/data` too);
then — after the document is on disk — snapshot the mutable directories
with `_backup_directories`, so the snapshot's `data/` copy contains
the import document; then spawn and supervise.  `realmConfig` carries the
realm name of the supplied config document (`None` when no config). -/
def start (env : StartEnv) (realmConfig : Option String) (waitFlag : Bool)
    (timeout : Nat) (s : MgrState) : Except KcError Unit × MgrState :=
  if is_running s then
    (.ok (), s)
  else if s.installed = false then
    (.error (.startError
      "Keycloak is not installed. Call download_and_install() first."), s)
  else
    match startPortPhase env.inUse s with
    | .error e => (.error e, s)
    | .ok s1 =>
      let s2 :=
        match realmConfig with
        | some _ => { s1 with realmConfigFile := some s1.port,
                              realmFileOnDisk := true, dataDirOnDisk := true }
        | none => s1
      let s3 := { s2 with backupDir := some 0, backupOnDisk := true,
                          backupHasData := s2.dataDirOnDisk,
                          backupHasConf := s2.confDirOnDisk,
                          backupHasImportFile := s2.dataDirOnDisk && s2.realmFileOnDisk }
      startSpawnPhase env realmConfig waitFlag timeout s3

/-- The filesystem and network facts `download_and_install` manipulates:
whether `install_dir/keycloak-<version>` exists, whether its `bin/kc.sh`
entry point exists, a modification stamp for the distribution directory,
and a count of completed archive downloads. -/
structure InstallFS where
  kcDirOnDisk : Bool
  kcShOnDisk : Bool
  distMTime : Nat
  downloads : Nat
deriving DecidableEq, Repr

/-- `KeycloakManager.download_and_install`: check the Java prerequisite
(outcome abstracted by `javaOk`); return immediately when the distribution
directory already holds `bin/kc.sh`; otherwise download the archive
(failure abstracted by `downloadOk`, wrapped as `KeycloakDownloadError`
with the temp archive removed either way) and extract it, which creates
the distribution directory with its entry point and touches its
modification stamp. -/
def download_and_install (javaOk downloadOk : Bool) (fs : InstallFS) :
    Except KcError InstallFS :=
  if javaOk = false then
    .error (.javaNotFound "Java not found. Please install Java 17 or higher")
  else if fs.kcDirOnDisk && fs.kcShOnDisk then
    .ok fs
  else if downloadOk = false then
    .error (.downloadError "Failed to download Keycloak")
  else
    .ok { kcDirOnDisk := true, kcShOnDisk := true,
          distMTime := fs.distMTime + 1, downloads := fs.downloads + 1 }

/-- JSON values, as built by `RealmConfig.to_keycloak_json` in `config.py`;
an object is an association list of keys in insertion order, so "the dict
contains a key" is membership of that key in the list. -/
inductive JVal where
  | str (s : String)
  | bool (b : Bool)
  | arr (xs : List JVal)
  | obj (fields : List (String × JVal))

/-- Whether a serialized JSON object carries key `k`. -/
def hasKey (k : String) (l : List (String × JVal)) : Bool :=
  l.any (fun kv => kv.1 == k)

/-- `UserConfig` from `config.py`. -/
structure UserConfig where
  username : String
  password : String
  email : Option String
  first_name : Option String
  last_name : Option String
  enabled : Bool
  realm_roles : List String
  client_roles : List (String × List String)

/-- `ClientConfig` from `config.py`. -/
structure ClientConfig where
  client_id : String
  enabled : Bool
  public_client : Bool
  redirect_uris : List String
  web_origins : List String
  direct_access_grants_enabled : Bool
  secret : Option String

/-- `RealmConfig` from `config.py`. -/
structure RealmConfig where
  realm : String
  enabled : Bool
  users : List UserConfig
  clients : List ClientConfig

/-- The `user_data` dict built per user inside
`RealmConfig.to_keycloak_json`; Python truthiness makes the optional keys
appear only for a non-`None`, non-empty value (non-empty list for roles). -/
def userEntry (u : UserConfig) : List (String × JVal) :=
  [("username", .str u.username),
   ("enabled", .bool u.enabled),
   ("credentials", .arr [.obj [("type", .str "password"),
                               ("value", .str u.password),
                               ("temporary", .bool false)]])] ++
  (match u.email with
   | some e => if e ≠ "" then [("email", .str e), ("emailVerified", .bool true)] else []
   | none => []) ++
  (match u.first_name with
   | some n => if n ≠ "" then [("firstName", .str n)] else []
   | none => []) ++
  (match u.last_name with
   | some n => if n ≠ "" then [("lastName", .str n)] else []
   | none => []) ++
  (if u.realm_roles ≠ [] then
    [("realmRoles", .arr (u.realm_roles.map JVal.str))]
   else []) ++
  (if u.client_roles ≠ [] then
    [("clientRoles", .obj (u.client_roles.map
        (fun kv => (kv.1, JVal.arr (kv.2.map JVal.str)))))]
   else [])

/-- The `client_data` dict built per client inside
`RealmConfig.to_keycloak_json`: the fixed keys in source order, then the
`secret` key added only when `client.secret` is truthy (non-`None` and
non-empty) and the client is not public. -/
def clientEntry (c : ClientConfig) : List (String × JVal) :=
  [("clientId", .str c.client_id),
   ("enabled", .bool c.enabled),
   ("publicClient", .bool c.public_client),
   ("redirectUris", .arr (c.redirect_uris.map JVal.str)),
   ("webOrigins", .arr (c.web_origins.map JVal.str)),
   ("directAccessGrantsEnabled", .bool c.direct_access_grants_enabled),
   ("standardFlowEnabled", .bool true),
   ("implicitFlowEnabled", .bool false),
   ("serviceAccountsEnabled", .bool (!c.public_client))] ++
  (match c.secret with
   | some sec => if sec ≠ "" ∧ c.public_client = false then [("secret", .str sec)] else []
   | none => [])

/-- `RealmConfig.to_keycloak_json`: the realm import document, with the
users and clients arrays produced by the two conversion loops. -/
def to_keycloak_json (r : RealmConfig) : List (String × JVal) :=
  [("realm", .str r.realm),
   ("enabled", .bool r.enabled),
   ("verifyEmail", .bool false),
   ("registrationEmailAsUsername", .bool false),
   ("users", .arr (r.users.map (fun u => JVal.obj (userEntry u)))),
   ("clients", .arr (r.clients.map (fun c => JVal.obj (clientEntry c)))),
   ("roles", .obj [("realm", .arr
      [.obj [("name", .str "user"), ("description", .str "User role")],
       .obj [("name", .str "admin"), ("description", .str "Admin role")]])])]

/-- A candidate offset is accepted when both its ports are bindable. -/
def pairFree (inUse : Nat → Bool) (sp k : Nat) : Prop :=
  inUse (sp + k) = false ∧ inUse (sp + k + 1000) = false

instance (inUse : Nat → Bool) (sp k : Nat) : Decidable (pairFree inUse sp k) := by
  unfold pairFree; infer_instance

/-- A start environment whose spawned process dies during the settle
delay, with all ports bindable. -/
def envDiedEarly : StartEnv :=
  { inUse := fun _ => false, settleAlive := false, health := fun _ => none,
    realmReady := fun _ => none, runningAt := fun _ => false }

/-- A start environment whose process keeps running but whose health
endpoint never answers 200, with all ports bindable. -/
def envNeverReady : StartEnv :=
  { inUse := fun _ => false, settleAlive := true, health := fun _ => none,
    realmReady := fun _ => none, runningAt := fun _ => true }

/-- A freshly-constructed installed instance with pinned ports. -/
def freshPinnedState : MgrState :=
  { installed := true, explicitPort := true, port := 18080,
    managementPort := 19080, processStatus := .noProcess,
    realmConfigFile := none, realmFileOnDisk := false,
    dataDirOnDisk := false, confDirOnDisk := true,
    backupDir := none, backupOnDisk := false,
    backupHasData := false, backupHasConf := false,
    backupHasImportFile := false }

/-! Theorems. -/

/-- The port-search loop returns `some` exactly at the first in-window
offset whose pair is free. -/
theorem findPortPairFrom_eq_some_iff (inUse : Nat → Bool) (sp : Nat) :
    ∀ fuel off p, findPortPairFrom inUse sp off fuel = some p ↔
      ∃ k, k < fuel ∧ p = (sp + off + k, sp + off + k + 1000) ∧
        pairFree inUse sp (off + k) ∧
        ∀ j, j < k → ¬ pairFree inUse sp (off + j) := by
  intro fuel
  induction fuel with
  | zero => intro off p; simp [findPortPairFrom]
  | succ fuel ih =>
    intro off p
    rw [findPortPairFrom]
    by_cases hfree : pairFree inUse sp off
    · rw [if_pos (by simp [is_port_in_use, hfree.1, hfree.2])]
      constructor
      · intro hp
        refine ⟨0, Nat.succ_pos _, ?_, by simpa using hfree, by omega⟩
        simpa [Nat.add_zero] using hp.symm
      · rintro ⟨k, hk, hp, hkfree, hkmin⟩
        rcases Nat.eq_zero_or_pos k with rfl | hkpos
        · simp [hp]
        · exact absurd hfree (by simpa using hkmin 0 hkpos)
    · rw [if_neg ?hneg]
      case hneg =>
        simp only [pairFree, not_and] at hfree
        simp only [is_port_in_use, Bool.and_eq_true, Bool.not_eq_true']
        rintro ⟨h1, h2⟩
        exact absurd h2 (hfree h1)
      rw [ih (off + 1) p]
      constructor
      · rintro ⟨k, hk, hp, hkfree, hkmin⟩
        refine ⟨k + 1, by omega, ?_, ?_, ?_⟩
        · have he : sp + off + (k + 1) = sp + (off + 1) + k := by omega
          rw [he]; exact hp
        · have he : off + (k + 1) = off + 1 + k := by omega
          rw [he]; exact hkfree
        · intro j hj
          rcases Nat.eq_zero_or_pos j with rfl | hjpos
          · simpa using hfree
          · have he : off + j = off + 1 + (j - 1) := by omega
            rw [he]; exact hkmin (j - 1) (by omega)
      · rintro ⟨k, hk, hp, hkfree, hkmin⟩
        rcases Nat.eq_zero_or_pos k with rfl | hkpos
        · exact absurd (by simpa using hkfree) hfree
        · refine ⟨k - 1, by omega, ?_, ?_, ?_⟩
          · have he : sp + (off + 1) + (k - 1) = sp + off + k := by omega
            rw [he]; exact hp
          · have he : off + 1 + (k - 1) = off + k := by omega
            rw [he]; exact hkfree
          · intro j hj
            have he : off + 1 + j = off + (j + 1) := by omega
            rw [he]; exact hkmin (j + 1) (by omega)

/-- The port-search loop exhausts its attempts exactly when no in-window
offset has a free pair. -/
theorem findPortPairFrom_eq_none_iff (inUse : Nat → Bool) (sp : Nat) :
    ∀ fuel off, findPortPairFrom inUse sp off fuel = none ↔
      ∀ k, k < fuel → ¬ pairFree inUse sp (off + k) := by
  intro fuel
  induction fuel with
  | zero => intro off; simp [findPortPairFrom]
  | succ fuel ih =>
    intro off
    rw [findPortPairFrom]
    by_cases hfree : pairFree inUse sp off
    · rw [if_pos (by simp [is_port_in_use, hfree.1, hfree.2])]
      simp only [reduceCtorEq, false_iff, not_forall]
      exact ⟨0, Nat.succ_pos _, by simpa using hfree⟩
    · rw [if_neg ?hneg]
      case hneg =>
        simp only [pairFree, not_and] at hfree
        simp only [is_port_in_use, Bool.and_eq_true, Bool.not_eq_true']
        rintro ⟨h1, h2⟩
        exact absurd h2 (hfree h1)
      rw [ih (off + 1)]
      constructor
      · intro h k hk
        rcases Nat.eq_zero_or_pos k with rfl | hkpos
        · simpa using hfree
        · have he : off + k = off + 1 + (k - 1) := by omega
          rw [he]; exact h (k - 1) (by omega)
      · intro h k hk
        have he : off + 1 + k = off + (k + 1) := by omega
        rw [he]; exact h (k + 1) (by omega)

/-- C5: `_find_available_ports` linearly probes `startPort, startPort+1, …`
for at most 100 candidates; an `ok` result is exactly the pair
`(p, p + 1000)` for the smallest offset below 100 whose two ports are both
bindable, and the `StartFailed` error is raised exactly when no offset
below 100 has both ports bindable. -/
theorem find_available_ports_spec (inUse : Nat → Bool) (sp : Nat) :
    (∀ hp mp, find_available_ports inUse sp 100 = .ok (hp, mp) ↔
      ∃ off, off < 100 ∧ hp = sp + off ∧ mp = hp + 1000 ∧
        pairFree inUse sp off ∧ ∀ j, j < off → ¬ pairFree inUse sp j) ∧
    (find_available_ports inUse sp 100 = .error (.startError
        ("Could not find available port pair after 100 attempts starting from " ++
          toString sp)) ↔
      ∀ off, off < 100 → ¬ pairFree inUse sp off) := by
  constructor
  · intro hp mp
    unfold find_available_ports
    rcases hsearch : findPortPairFrom inUse sp 0 100 with _ | pair
    · rw [findPortPairFrom_eq_none_iff] at hsearch
      simp only [reduceCtorEq, false_iff, not_exists]
      rintro off ⟨hoff, _, _, hofffree, _⟩
      exact absurd hofffree (by simpa using hsearch off hoff)
    · rw [findPortPairFrom_eq_some_iff] at hsearch
      rcases hsearch with ⟨k, hk, hpair, hkfree, hkmin⟩
      subst hpair
      simp only [Nat.zero_add] at hkfree hkmin ⊢
      constructor
      · rintro h
        rcases Prod.mk.injEq .. ▸ Except.ok.injEq .. ▸ h with ⟨h1, h2⟩
        exact ⟨k, hk, h1.symm, by omega, hkfree, fun j hj => hkmin j hj⟩
      · rintro ⟨off, hoff, rfl, rfl, hofffree, hoffmin⟩
        have : off = k := by
          by_contra hne
          rcases Nat.lt_or_ge off k with hlt | hge
          · exact absurd hofffree (hkmin off hlt)
          · exact absurd hkfree (hoffmin k (by omega))
        subst this
        rfl
  · unfold find_available_ports
    rcases hsearch : findPortPairFrom inUse sp 0 100 with _ | pair
    · rw [findPortPairFrom_eq_none_iff] at hsearch
      have hmsg : "Could not find available port pair after " ++ toString (100 : Nat) ++
          " attempts starting from " =
          "Could not find available port pair after 100 attempts starting from " := rfl
      rw [hmsg]
      simp only [true_iff]
      intro off hoff
      simpa using hsearch off hoff
    · rw [findPortPairFrom_eq_some_iff] at hsearch
      rcases hsearch with ⟨k, hk, hpair, hkfree, hkmin⟩
      simp only [reduceCtorEq, false_iff, not_forall]
      exact ⟨k, hk, by simpa using hkfree⟩

/-- C6: with pinned explicit ports, the port-selection step of `start`
bypasses the search entirely (its outcome depends only on the bindability
of the two pinned ports), succeeds with the port fields unchanged when
both are bindable, and otherwise `start` fails immediately with a
`StartFailed` error, leaving the instance state (port fields included)
unchanged. -/
theorem start_explicit_ports_fail_fast (inUse : Nat → Bool) (s : MgrState)
    (hexp : s.explicitPort = true) :
    (∀ inUse' : Nat → Bool, inUse' s.port = inUse s.port →
      inUse' s.managementPort = inUse s.managementPort →
      startPortPhase inUse' s = startPortPhase inUse s) ∧
    (inUse s.port = false → inUse s.managementPort = false →
      startPortPhase inUse s = .ok s) ∧
    (∀ env : StartEnv, ∀ rc : Option String, ∀ wf : Bool, ∀ tmo : Nat,
      env.inUse = inUse → is_running s = false → s.installed = true →
      (inUse s.port = true ∨ inUse s.managementPort = true) →
      ∃ msg, start env rc wf tmo s = (.error (.startError msg), s)) := by
  refine ⟨?_, ?_, ?_⟩
  · intro inUse' h1 h2
    simp only [startPortPhase, hexp, if_true, is_port_in_use, h1, h2]
  · intro h1 h2
    simp only [startPortPhase, hexp, if_true, is_port_in_use, h1,
      Bool.false_eq_true, if_false, h2]
  · intro env rc wf tmo henv hrun hinst hbusy
    have hphase : ∃ msg, startPortPhase env.inUse s = .error (.startError msg) := by
      by_cases hp : inUse s.port = true
      · refine ⟨"Port " ++ toString s.port ++
          " is already in use. Please choose a different port.", ?_⟩
        simp only [startPortPhase, hexp, is_port_in_use, henv, hp, if_true]
      · have hp' : inUse s.port = false := by simpa using hp
        have hm : inUse s.managementPort = true := hbusy.resolve_left hp
        refine ⟨"Management port " ++ toString s.managementPort ++
          " is already in use. Please choose a different port.", ?_⟩
        simp [startPortPhase, hexp, is_port_in_use, henv, hp', hm]
    rcases hphase with ⟨msg, hphase⟩
    refine ⟨msg, ?_⟩
    simp [start, hrun, hinst, hphase]

/-- C6 witness: a pinned-port instance whose HTTP port is busy makes
`start` fail with `StartFailed` and unchanged state. -/
theorem start_explicit_ports_fail_fast_witness :
    let s : MgrState :=
      { installed := true, explicitPort := true, port := 18080,
        managementPort := 19080, processStatus := .noProcess,
        realmConfigFile := none, realmFileOnDisk := false,
        dataDirOnDisk := false, confDirOnDisk := true,
        backupDir := none, backupOnDisk := false,
        backupHasData := false, backupHasConf := false,
        backupHasImportFile := false }
    let busy : Nat → Bool := fun p => p == 18080
    let env : StartEnv :=
      { inUse := busy, settleAlive := true, health := fun _ => none,
        realmReady := fun _ => none, runningAt := fun _ => true }
    ∃ msg, start env none true 60 s = (.error (.startError msg), s) := by
  intro s busy env
  exact (start_explicit_ports_fail_fast busy s rfl).2.2 env none true 60 rfl
    rfl rfl (Or.inl rfl)

/-- C7: with the Java prerequisite satisfied, `download_and_install` is
idempotent — when the distribution directory already holds the entry point
the call returns the filesystem unchanged, a successful call followed by a
second call leaves the second one a no-op returning the same filesystem,
and at most one download happens across the two calls. -/
theorem download_and_install_idempotent (dOk : Bool) (fs fs' : InstallFS)
    (hfirst : download_and_install true dOk fs = .ok fs') :
    ((fs.kcDirOnDisk && fs.kcShOnDisk) = true → fs' = fs) ∧
    download_and_install true dOk fs' = .ok fs' ∧
    fs'.downloads ≤ fs.downloads + 1 := by
  by_cases hinst : (fs.kcDirOnDisk && fs.kcShOnDisk) = true
  · rw [download_and_install, if_neg (by simp), if_pos hinst] at hfirst
    cases Except.ok.injEq .. ▸ hfirst
    refine ⟨fun _ => rfl, ?_, Nat.le_succ _⟩
    rw [download_and_install, if_neg (by simp), if_pos hinst]
  · rcases hdl : dOk with _ | _
    · rw [download_and_install, if_neg (by simp), if_neg hinst, hdl,
        if_pos rfl] at hfirst
      exact absurd hfirst (by simp)
    · rw [download_and_install, if_neg (by simp), if_neg hinst, hdl,
        if_neg (by simp)] at hfirst
      cases Except.ok.injEq .. ▸ hfirst
      refine ⟨fun h => absurd h hinst, ?_, Nat.le_refl _⟩
      simp [download_and_install]

/-- C7 witness: an already-installed filesystem makes a first call a no-op
and the two-calls properties hold at it. -/
theorem download_and_install_idempotent_witness :
    let fs : InstallFS :=
      { kcDirOnDisk := true, kcShOnDisk := true, distMTime := 5, downloads := 1 }
    fs = fs ∧ download_and_install true true fs = .ok fs ∧
    fs.downloads ≤ fs.downloads + 1 := by
  intro fs
  have h := download_and_install_idempotent true fs fs rfl
  exact ⟨h.1 rfl, h.2.1, h.2.2⟩

/-- C10: in the realm import document, the clients array is the list of
per-client dicts in order; a client dict carries the `secret` key exactly
when the config's secret is present and non-empty and the client is not
public, and its `serviceAccountsEnabled` value is the negation of
`public_client`. -/
theorem to_keycloak_json_client_serialization (r : RealmConfig) :
    List.lookup "clients" (to_keycloak_json r) =
      some (JVal.arr (r.clients.map (fun c => JVal.obj (clientEntry c)))) ∧
    ∀ c : ClientConfig,
      (hasKey "secret" (clientEntry c) = true ↔
        ∃ sec, c.secret = some sec ∧ sec ≠ "" ∧ c.public_client = false) ∧
      List.lookup "serviceAccountsEnabled" (clientEntry c) =
        some (JVal.bool (!c.public_client)) := by
  refine ⟨rfl, fun c => ⟨?_, rfl⟩⟩
  rcases hc : c.secret with _ | sec
  · have h0 : hasKey "secret" (clientEntry c) = false := by
      simp [clientEntry, hasKey, hc]
    rw [h0]
    simp
  · by_cases hcond : sec ≠ "" ∧ c.public_client = false
    · have h1 : hasKey "secret" (clientEntry c) = true := by
        simp [clientEntry, hasKey, hc, hcond]
      rw [h1]
      simp only [true_iff]
      exact ⟨sec, rfl, hcond.1, hcond.2⟩
    · have h0 : hasKey "secret" (clientEntry c) = false := by
        simp [clientEntry, hasKey, hc, hcond]
      rw [h0]
      simp only [Bool.false_eq_true, false_iff]
      rintro ⟨s, hs, hne, hpub⟩
      obtain rfl : sec = s := by injection hs
      exact hcond ⟨hne, hpub⟩

/-- C2: the round trip of `start` with an import document followed by a
normal `stop` leaves the import file ON disk.  `start` writes
`realm-{port}.json` before `_backup_directories` snapshots `data/`, so the
snapshot contains the file; `stop` unlinks the file (clearing the field)
but then `_restore_directories` copies the snapshot's `data/` back,
recreating the file — the unlink is undone on the very path it was written
for.  The claim also fails when the process has already exited: `stop`
returns early without touching the file. -/
theorem stop_import_file_resurrected_code_bug :
    let envOk : StartEnv :=
      { inUse := fun _ => false, settleAlive := true, health := fun _ => none,
        realmReady := fun _ => none, runningAt := fun _ => true }
    let started := (start envOk (some "testrealm") false 60 freshPinnedState).2
    (start envOk (some "testrealm") false 60 freshPinnedState).1 = .ok () ∧
    is_running started = true ∧
    started.realmFileOnDisk = true ∧
    started.backupHasImportFile = true ∧
    (stop true false (fun _ => false) started).realmConfigFile = none ∧
    (stop true false (fun _ => false) started).realmFileOnDisk = true ∧
    stop true false (fun _ => false)
        { started with processStatus := ProcStatus.exited } =
      { started with processStatus := ProcStatus.exited } := by
  exact ⟨rfl, rfl, rfl, rfl, rfl, rfl, rfl⟩

/-- C4 counterexample: a state whose `_backup_dir` field is set while the
backup directory is absent from disk; `_restore_directories` returns with
the field still set, refuting that every execution clears it. -/
theorem restore_clears_backup_counterexample :
    let s : MgrState :=
      { installed := true, explicitPort := false, port := 8080,
        managementPort := 9080, processStatus := .noProcess,
        realmConfigFile := none, realmFileOnDisk := false,
        dataDirOnDisk := true, confDirOnDisk := true,
        backupDir := some 7, backupOnDisk := false,
        backupHasData := true, backupHasConf := true,
        backupHasImportFile := false }
    restore_directories (fun _ => false) s = s ∧
    (restore_directories (fun _ => false) s).backupDir = some 7 := by
  exact ⟨rfl, rfl⟩

/-- The data-restore step never touches the backup bookkeeping fields,
whether it succeeds or raises part-way. -/
theorem restoreDataStep_preserves_backup (fails : RestoreOp → Bool) (s : MgrState) :
    (∀ s', restoreDataStep fails s = .ok s' →
      s'.backupDir = s.backupDir ∧ s'.backupOnDisk = s.backupOnDisk) ∧
    (∀ m s', restoreDataStep fails s = .error (m, s') →
      s'.backupDir = s.backupDir ∧ s'.backupOnDisk = s.backupOnDisk) := by
  constructor
  · intro s' h
    rw [restoreDataStep] at h
    split_ifs at h <;>
      (injection h with h1
       obtain rfl := h1
       exact ⟨rfl, rfl⟩)
  · intro m s' h
    rw [restoreDataStep] at h
    split_ifs at h <;>
      (injection h with h1
       obtain ⟨rfl, rfl⟩ := Prod.mk.injEq .. ▸ h1
       exact ⟨rfl, rfl⟩)

/-- The conf-restore step never touches the backup bookkeeping fields,
whether it succeeds or raises part-way. -/
theorem restoreConfStep_preserves_backup (fails : RestoreOp → Bool) (s : MgrState) :
    (∀ s', restoreConfStep fails s = .ok s' →
      s'.backupDir = s.backupDir ∧ s'.backupOnDisk = s.backupOnDisk) ∧
    (∀ m s', restoreConfStep fails s = .error (m, s') →
      s'.backupDir = s.backupDir ∧ s'.backupOnDisk = s.backupOnDisk) := by
  constructor
  · intro s' h
    rw [restoreConfStep] at h
    split_ifs at h <;>
      (injection h with h1
       obtain rfl := h1
       exact ⟨rfl, rfl⟩)
  · intro m s' h
    rw [restoreConfStep] at h
    split_ifs at h <;>
      (injection h with h1
       obtain ⟨rfl, rfl⟩ := Prod.mk.injEq .. ▸ h1
       exact ⟨rfl, rfl⟩)

/-- `_backup_dir` is cleared by the try block only at its very end: a
successful run ends with the field `None`, while the state carried out of
a raise still has the original field value. -/
theorem restoreAttempt_backupDir (fails : RestoreOp → Bool) (s : MgrState) :
    (∀ s', restoreAttempt fails s = .ok s' → s'.backupDir = none) ∧
    (∀ m s', restoreAttempt fails s = .error (m, s') →
      s'.backupDir = s.backupDir) := by
  constructor
  · intro s' h
    rcases hd : restoreDataStep fails s with e | s1
    · simp only [restoreAttempt, hd, reduceCtorEq] at h
    · simp only [restoreAttempt, hd] at h
      rcases hc : restoreConfStep fails s1 with e | s2
      · simp only [hc, reduceCtorEq] at h
      · simp only [hc] at h
        by_cases hbr : fails RestoreOp.backupRemove = true
        · rw [if_pos hbr] at h
          exact absurd h (by simp)
        · rw [if_neg hbr] at h
          injection h with h1
          obtain rfl := h1
          rfl
  · intro m s' h
    rcases hd : restoreDataStep fails s with ⟨m1, sd⟩ | s1
    · simp only [restoreAttempt, hd] at h
      injection h with h1
      obtain ⟨rfl, rfl⟩ := Prod.mk.injEq .. ▸ h1
      exact ((restoreDataStep_preserves_backup fails s).2 _ _ hd).1
    · simp only [restoreAttempt, hd] at h
      rcases hc : restoreConfStep fails s1 with ⟨m2, sc⟩ | s2
      · simp only [hc] at h
        injection h with h1
        obtain ⟨rfl, rfl⟩ := Prod.mk.injEq .. ▸ h1
        have hd1 := ((restoreDataStep_preserves_backup fails s).1 s1 hd).1
        have hc1 := ((restoreConfStep_preserves_backup fails s1).2 _ _ hc).1
        rw [hc1, hd1]
      · simp only [hc] at h
        by_cases hbr : fails RestoreOp.backupRemove = true
        · rw [if_pos hbr] at h
          injection h with h1
          obtain ⟨hm, rfl⟩ := Prod.mk.injEq .. ▸ h1
          have hd1 := ((restoreDataStep_preserves_backup fails s).1 s1 hd).1
          have hc1 := ((restoreConfStep_preserves_backup fails s1).1 _ hc).1
          rw [hc1, hd1]
        · rw [if_neg hbr] at h
          exact absurd h (by simp)

/-- C4 amended: `_restore_directories` never propagates an error — a
raising operation in the try block is swallowed (only logged) and the
function returns with whatever partial changes preceded the failure — and
the `_backup_dir` field is cleared exactly when it was already clear, or
the recorded backup existed on disk and every restore operation
succeeded; on the early-return and swallowed-failure paths it stays set. -/
theorem restore_directories_spec (fails : RestoreOp → Bool) (s : MgrState) :
    (∀ d, s.backupDir = some d → s.backupOnDisk = true →
      ∀ m s', restoreAttempt fails s = .error (m, s') →
        restore_directories fails s = s') ∧
    ((restore_directories fails s).backupDir = none ↔
      (s.backupDir = none ∨ (s.backupOnDisk = true ∧
        ∃ s', restoreAttempt fails s = .ok s'))) := by
  constructor
  · intro d hbd hbo m s' hatt
    simp [restore_directories, hbd, hbo, hatt]
  · rcases hbd : s.backupDir with _ | d
    · simp [restore_directories, hbd]
    · rcases hbo : s.backupOnDisk with _ | _
      · have hr : restore_directories fails s = s := by
          simp [restore_directories, hbd, hbo]
        rw [hr, hbd]
        simp
      · rcases hatt : restoreAttempt fails s with ⟨m, se⟩ | sok
        · have hr : restore_directories fails s = se := by
            simp [restore_directories, hbd, hbo, hatt]
          rw [hr]
          have hpres := (restoreAttempt_backupDir fails s).2 m se hatt
          rw [hpres, hbd]
          simp
        · have hr : restore_directories fails s = sok := by
            simp [restore_directories, hbd, hbo, hatt]
          rw [hr]
          have hok := (restoreAttempt_backupDir fails s).1 sok hatt
          rw [hok]
          simp

/-- C4 witness: a raising first restore operation is swallowed with the
state returned as reached, and the clearing iff holds at that state. -/
theorem restore_directories_spec_witness :
    let s : MgrState :=
      { installed := true, explicitPort := false, port := 8080,
        managementPort := 9080, processStatus := .noProcess,
        realmConfigFile := none, realmFileOnDisk := false,
        dataDirOnDisk := true, confDirOnDisk := true,
        backupDir := some 3, backupOnDisk := true,
        backupHasData := true, backupHasConf := true,
        backupHasImportFile := false }
    restore_directories (fun _ => true) s = s ∧
    ((restore_directories (fun _ => true) s).backupDir = none ↔
      (s.backupDir = none ∨ (s.backupOnDisk = true ∧
        ∃ s', restoreAttempt (fun _ => true) s = .ok s'))) := by
  intro s
  exact ⟨(restore_directories_spec (fun _ => true) s).1 3 rfl rfl
      "rmtree of the data directory failed" s rfl,
    (restore_directories_spec (fun _ => true) s).2⟩

/-- C8: whenever the post-spawn step of `start` returns an error, the
process handle has been killed and cleared before the error is surfaced
(`processStatus` is `noProcess`, so `is_running` is false), and more
generally any `start` call that returns an error leaves a state on which
`is_running` is false. -/
theorem start_failure_clears_process (env : StartEnv) (rn : Option String)
    (wf : Bool) (tmo : Nat) (s : MgrState) (e : KcError) :
    ((startSpawnPhase env rn wf tmo s).1 = .error e →
      (startSpawnPhase env rn wf tmo s).2.processStatus = ProcStatus.noProcess ∧
      is_running (startSpawnPhase env rn wf tmo s).2 = false) ∧
    ((start env rn wf tmo s).1 = .error e →
      is_running (start env rn wf tmo s).2 = false) := by
  have hspawn : ∀ s' : MgrState, (startSpawnPhase env rn wf tmo s').1 = .error e →
      (startSpawnPhase env rn wf tmo s').2.processStatus = ProcStatus.noProcess ∧
      is_running (startSpawnPhase env rn wf tmo s').2 = false := by
    intro s' herr
    rcases htb : startTryBody env rn wf tmo with e' | u
    · rw [startSpawnPhase]
      simp [htb, is_running]
    · rw [startSpawnPhase] at herr
      simp only [htb] at herr
      exact absurd herr (by simp)
  refine ⟨hspawn s, ?_⟩
  intro herr
  by_cases hrun : is_running s = true
  · rw [start, if_pos hrun] at herr
    exact absurd herr (by simp)
  · have hrun' : is_running s = false := by simpa using hrun
    rw [start, if_neg (by rw [hrun']; simp)] at herr ⊢
    by_cases hinst : s.installed = false
    · rw [if_pos hinst] at herr ⊢
      exact hrun'
    · rw [if_neg hinst] at herr ⊢
      rcases hport : startPortPhase env.inUse s with e'' | s1
      · exact hrun'
      · rw [hport] at herr
        exact (hspawn _ herr).2

/-- C8 witness: a start whose process dies during the settle delay fails
with the handle cleared and `is_running` false. -/
theorem start_failure_clears_process_witness :
    let s : MgrState :=
      { installed := true, explicitPort := true, port := 18080,
        managementPort := 19080, processStatus := .noProcess,
        realmConfigFile := none, realmFileOnDisk := false,
        dataDirOnDisk := false, confDirOnDisk := true,
        backupDir := none, backupOnDisk := false,
        backupHasData := false, backupHasConf := false,
        backupHasImportFile := false }
    let env : StartEnv :=
      { inUse := fun _ => false, settleAlive := false, health := fun _ => none,
        realmReady := fun _ => none, runningAt := fun _ => false }
    ((startSpawnPhase env none false 60 s).2.processStatus = ProcStatus.noProcess ∧
      is_running (startSpawnPhase env none false 60 s).2 = false) ∧
    is_running (start env none false 60 s).2 = false := by
  intro s env
  exact ⟨(start_failure_clears_process env none false 60 s (.startError
      "Failed to start Keycloak: Keycloak process terminated immediately. Check logs")).1 rfl,
    (start_failure_clears_process env none false 60 s (.startError
      "Failed to start Keycloak: Keycloak process terminated immediately. Check logs")).2 rfl⟩

/-- C3 counterexample: the "process terminated" failure on a dead-process
tick and the "did not become ready" failure at timeout are both raised as
the `KeycloakTimeoutError` class — the same error kind (only the messages
differ), refuting that the died-during-startup error is a distinct kind. -/
theorem wait_ready_died_same_kind_counterexample :
    healthPhase (fun _ => none) (fun _ => false) 10 0 =
      .error (.timeoutError "Keycloak process terminated. Check logs") ∧
    healthPhase (fun _ => none) (fun _ => true) 2 0 =
      .error (.timeoutError "Keycloak did not become ready within 2 seconds") ∧
    (KcError.timeoutError "Keycloak process terminated. Check logs").kind =
      (KcError.timeoutError "Keycloak did not become ready within 2 seconds").kind := by
  refine ⟨?_, ?_, rfl⟩
  · rw [healthPhase]
    simp
  · rw [healthPhase, healthPhase]
    simp
    rfl

/-- C3 amended: on any poll tick where the health check has not answered
200 and the supervised process is no longer running, `wait_for_ready`
fails immediately on that tick with the "process terminated" message — a
message distinct from the "did not become ready" timeout message — but
both failures are raised as the same exception class
(`KeycloakTimeoutError`). -/
theorem wait_ready_dead_process_immediate (health : Nat → Option Nat)
    (running : Nat → Bool) (timeout t : Nat)
    (ht : t < timeout) (hh : health t ≠ some 200) (hr : running t = false) :
    healthPhase health running timeout t =
      .error (.timeoutError "Keycloak process terminated. Check logs") ∧
    "Keycloak process terminated. Check logs" ≠
      "Keycloak did not become ready within " ++ toString timeout ++ " seconds" ∧
    (KcError.timeoutError "Keycloak process terminated. Check logs").kind =
      KcErrorKind.readinessTimeout := by
  refine ⟨?_, ?_, rfl⟩
  · rw [healthPhase, dif_pos ht, if_neg hh, if_pos hr]
  · intro hcontra
    have hlen := congrArg String.length hcontra
    rw [String.length_append, String.length_append] at hlen
    have h1 : ("Keycloak process terminated. Check logs").length = 39 := rfl
    have h2 : ("Keycloak did not become ready within ").length = 37 := rfl
    have h3 : (" seconds").length = 8 := rfl
    omega

/-- C3 witness: a dead process with an unanswered health check at tick 0 of
a 10-second budget. -/
theorem wait_ready_dead_process_immediate_witness :
    (0 : Nat) < 10 ∧
    (healthPhase (fun _ => none) (fun _ => false) 10 0 =
      .error (.timeoutError "Keycloak process terminated. Check logs") ∧
    "Keycloak process terminated. Check logs" ≠
      "Keycloak did not become ready within " ++ toString (10 : Nat) ++ " seconds" ∧
    (KcError.timeoutError "Keycloak process terminated. Check logs").kind =
      KcErrorKind.readinessTimeout) := by
  exact ⟨by omega, wait_ready_dead_process_immediate (fun _ => none) (fun _ => false)
    10 0 (by omega) (by simp) rfl⟩

/-- A successful health phase breaks out of the loop at a tick no earlier
than its entry tick and strictly inside the timeout budget. -/
theorem healthPhase_ok_bounds (health : Nat → Option Nat) (running : Nat → Bool)
    (timeout : Nat) :
    ∀ elapsed t, healthPhase health running timeout elapsed = .ok t →
      elapsed ≤ t ∧ t < timeout := by
  have H : ∀ d elapsed t, timeout - elapsed ≤ d →
      healthPhase health running timeout elapsed = .ok t →
      elapsed ≤ t ∧ t < timeout := by
    intro d
    induction d with
    | zero =>
      intro e t hle h
      rw [healthPhase, dif_neg (by omega)] at h
      exact absurd h (by simp)
    | succ d ih =>
      intro e t hle h
      by_cases hlt : e < timeout
      · rw [healthPhase, dif_pos hlt] at h
        by_cases hh : health e = some 200
        · rw [if_pos hh] at h
          obtain rfl : e = t := by injection h
          exact ⟨Nat.le_refl e, hlt⟩
        · rw [if_neg hh] at h
          by_cases hr : running e = false
          · rw [if_pos hr] at h
            exact absurd h (by simp)
          · rw [if_neg hr] at h
            have hrec := ih (e + 2) t (by omega) h
            exact ⟨by omega, hrec.2⟩
      · rw [healthPhase, dif_neg hlt] at h
        exact absurd h (by simp)
  exact fun e t => H (timeout - e) e t (Nat.le_refl _)

/-- The realm poll phase consults the realm endpoint only at ticks between
its entry tick and the shared deadline: its outcome is unchanged under any
modification of the responses outside that window. -/
theorem realmPhase_congr (running : Nat → Bool) (timeout : Nat)
    (realmR realmR' : Nat → Option Nat) :
    ∀ elapsed, (∀ u, u < timeout → elapsed ≤ u → realmR u = realmR' u) →
      realmPhase realmR running timeout elapsed =
        realmPhase realmR' running timeout elapsed := by
  have H : ∀ d elapsed, timeout - elapsed ≤ d →
      (∀ u, u < timeout → elapsed ≤ u → realmR u = realmR' u) →
      realmPhase realmR running timeout elapsed =
        realmPhase realmR' running timeout elapsed := by
    intro d
    induction d with
    | zero =>
      intro e hle hag
      conv_lhs => rw [realmPhase]
      conv_rhs => rw [realmPhase]
      rw [dif_neg (by omega), dif_neg (by omega)]
    | succ d ih =>
      intro e hle hag
      conv_lhs => rw [realmPhase]
      conv_rhs => rw [realmPhase]
      by_cases hlt : e < timeout
      · rw [dif_pos hlt, dif_pos hlt, hag e hlt (Nat.le_refl e)]
        by_cases h200 : realmR' e = some 200
        · rw [if_pos h200, if_pos h200]
        · rw [if_neg h200, if_neg h200]
          by_cases hrun : running e = false
          · rw [if_pos hrun, if_pos hrun]
          · rw [if_neg hrun, if_neg hrun]
            exact ih (e + 2) (by omega) (fun u hu h2 => hag u hu (by omega))
      · rw [dif_neg hlt, dif_neg hlt]
  exact fun e => H (timeout - e) e (Nat.le_refl _)

/-- C9: when a realm import document was supplied, the second poll phase of
`wait_for_ready` runs on the remaining budget of the same clock as the
health phase: it starts at the tick where the health phase broke (which is
strictly inside the budget), keeps the original `timeout` deadline rather
than a fresh one, and never consults realm responses at or beyond that
shared deadline. -/
theorem wait_for_ready_shared_clock (health realmR realmR' : Nat → Option Nat)
    (running : Nat → Bool) (timeout t : Nat) (name : String)
    (hok : healthPhase health running timeout 0 = .ok t)
    (hagree : ∀ u, u < timeout → t ≤ u → realmR u = realmR' u) :
    t < timeout ∧
    wait_for_ready health realmR running timeout (some name) =
      realmPhase realmR running timeout t ∧
    wait_for_ready health realmR running timeout (some name) =
      wait_for_ready health realmR' running timeout (some name) := by
  have hb := healthPhase_ok_bounds health running timeout 0 t hok
  refine ⟨hb.2, ?_, ?_⟩
  · rw [wait_for_ready, hok]
  · rw [wait_for_ready, wait_for_ready, hok]
    exact realmPhase_congr running timeout realmR realmR' t hagree

/-- C9 witness: health answers at tick 2 of a 6-second budget; the realm
responses agree inside the remaining window but differ at and past the
shared deadline, and the phase-two outcome is unaffected. -/
theorem wait_for_ready_shared_clock_witness :
    healthPhase (fun u => if u = 2 then some 200 else none) (fun _ => true) 6 0 =
      .ok 2 ∧
    (∀ u, u < 6 → 2 ≤ u →
      (fun _ : Nat => (none : Option Nat)) u =
        (fun u : Nat => if u < 6 then none else some 200) u) ∧
    (2 < 6 ∧
     wait_for_ready (fun u => if u = 2 then some 200 else none)
        (fun _ => none) (fun _ => true) 6 (some "test") =
       realmPhase (fun _ => none) (fun _ => true) 6 2 ∧
     wait_for_ready (fun u => if u = 2 then some 200 else none)
        (fun _ => none) (fun _ => true) 6 (some "test") =
       wait_for_ready (fun u => if u = 2 then some 200 else none)
        (fun u => if u < 6 then none else some 200) (fun _ => true) 6 (some "test")) := by
  have hok : healthPhase (fun u => if u = 2 then some 200 else none)
      (fun _ => true) 6 0 = .ok 2 := by
    rw [healthPhase, healthPhase]
    simp
  have hag : ∀ u, u < 6 → 2 ≤ u →
      (fun _ : Nat => (none : Option Nat)) u =
        (fun u : Nat => if u < 6 then none else some 200) u := by
    intro u hu _
    simp [hu]
  exact ⟨hok, hag, wait_for_ready_shared_clock _ _ _ _ 6 2 "test" hok hag⟩

/-- C1: a process that exits during the settle delay makes `start` fail
with `KeycloakStartError`; a process that keeps running while health never
answers 200 within the budget makes `wait_for_ready` raise
`KeycloakTimeoutError`, but `start` re-wraps that error through its blanket
`except` clause, so the error `start` surfaces in the second scenario is
also of the `StartFailed` kind — the two failure modes are not
distinguished by the error kind `start` raises, contradicting the
documented `Raises` contract of `start`. -/
theorem start_wraps_readiness_timeout_code_bug :
    (start envDiedEarly none true 4 freshPinnedState).1 =
      .error (.startError
        "Failed to start Keycloak: Keycloak process terminated immediately. Check logs") ∧
    wait_for_ready envNeverReady.health envNeverReady.realmReady
        envNeverReady.runningAt 4 none =
      .error (.timeoutError "Keycloak did not become ready within 4 seconds") ∧
    (start envNeverReady none true 4 freshPinnedState).1 =
      .error (.startError
        "Failed to start Keycloak: Keycloak did not become ready within 4 seconds") ∧
    (KcError.startError
        "Failed to start Keycloak: Keycloak process terminated immediately. Check logs").kind =
      (KcError.startError
        "Failed to start Keycloak: Keycloak did not become ready within 4 seconds").kind ∧
    (KcError.startError
        "Failed to start Keycloak: Keycloak did not become ready within 4 seconds").kind ≠
      (KcError.timeoutError "Keycloak did not become ready within 4 seconds").kind := by
  have hhp : healthPhase (fun _ => none) (fun _ => true) 4 0 =
      .error (.timeoutError "Keycloak did not become ready within 4 seconds") := by
    rw [healthPhase, healthPhase, healthPhase]
    simp
    rfl
  have hwfr : wait_for_ready (fun _ => (none : Option Nat)) (fun _ => none)
      (fun _ => true) 4 none =
      .error (.timeoutError "Keycloak did not become ready within 4 seconds") := by
    rw [wait_for_ready, hhp]
  have htb : startTryBody
      { inUse := fun _ => false, settleAlive := true, health := fun _ => none,
        realmReady := fun _ => none, runningAt := fun _ => true } none true 4 =
      .error (.timeoutError "Keycloak did not become ready within 4 seconds") := by
    simp [startTryBody, hwfr]
  refine ⟨rfl, hwfr, ?_, rfl, by simp [KcError.kind]⟩
  rw [start]
  simp [is_running, freshPinnedState, startPortPhase, is_port_in_use,
    envNeverReady, startSpawnPhase, htb, KcError.message]

/-- C5 witness: with only port 8080 busy, the search returns the pair at
offset 1, namely 8081 and 9081. -/
theorem find_available_ports_spec_witness :
    find_available_ports (fun p => p == 8080) 8080 100 = .ok (8081, 9081) := by
  exact ((find_available_ports_spec (fun p => p == 8080) 8080).1 8081 9081).mpr
    ⟨1, by omega, by omega, by omega, by decide, by decide⟩

/-- C10 witness: a confidential client with a non-empty secret serializes
with the secret key present and service accounts enabled. -/
theorem to_keycloak_json_client_serialization_witness :
    let c : ClientConfig :=
      { client_id := "api", enabled := true, public_client := false,
        redirect_uris := [], web_origins := [],
        direct_access_grants_enabled := true, secret := some "s3" }
    let r : RealmConfig := { realm := "test", enabled := true, users := [], clients := [c] }
    List.lookup "clients" (to_keycloak_json r) =
      some (JVal.arr [JVal.obj (clientEntry c)]) ∧
    hasKey "secret" (clientEntry c) = true ∧
    List.lookup "serviceAccountsEnabled" (clientEntry c) = some (JVal.bool true) := by
  intro c r
  have h := to_keycloak_json_client_serialization r
  exact ⟨h.1, ((h.2 c).1).mpr ⟨"s3", rfl, by decide, rfl⟩, (h.2 c).2⟩

end PytestKeycloak
